import Mathlib

/-!
Verification development for the MG-ADL survey application (`mgadl.py`).

The Python source is shallowly embedded below: pure helpers
(`compute_total`, `make_patient_hash`, `make_submission_id`,
`ensure_header`, `build_record`) become Lean functions; the Streamlit
session state becomes an explicit `SessionState` record threaded through
the interaction handlers; the gspread worksheet becomes a `Worksheet`
value plus an explicit trace of remote operations; Python exceptions
become `Except` values.  SHA-256 is implemented concretely (FIPS 180-4)
over `Nat` with explicit `% 2^32` reductions.
-/

set_option maxRecDepth 4000

namespace MGADL

/-! ### SHA-256 over byte lists (FIPS 180-4) -/

/-- Reduce to a 32-bit word. -/
def w32 (n : Nat) : Nat := n % 4294967296

/-- Right rotation of a 32-bit word. -/
def rotr32 (n x : Nat) : Nat := ((x >>> n) ||| (x <<< (32 - n))) % 4294967296

def bsig0 (x : Nat) : Nat := rotr32 2 x ^^^ rotr32 13 x ^^^ rotr32 22 x

def bsig1 (x : Nat) : Nat := rotr32 6 x ^^^ rotr32 11 x ^^^ rotr32 25 x

def ssig0 (x : Nat) : Nat := rotr32 7 x ^^^ rotr32 18 x ^^^ (x >>> 3)

def ssig1 (x : Nat) : Nat := rotr32 17 x ^^^ rotr32 19 x ^^^ (x >>> 10)

def chf (x y z : Nat) : Nat := (x &&& y) ^^^ ((x ^^^ 4294967295) &&& z)

def majf (x y z : Nat) : Nat := (x &&& y) ^^^ (x &&& z) ^^^ (y &&& z)

/-- The 64 SHA-256 round constants (FIPS 180-4 §4.2.2), in decimal. -/
def K256 : List Nat :=
  [1116352408, 1899447441, 3049323471, 3921009573,
   961987163, 1508970993, 2453635748, 2870763221,
   3624381080, 310598401, 607225278, 1426881987,
   1925078388, 2162078206, 2614888103, 3248222580,
   3835390401, 4022224774, 264347078, 604807628,
   770255983, 1249150122, 1555081692, 1996064986,
   2554220882, 2821834349, 2952996808, 3210313671,
   3336571891, 3584528711, 113926993, 338241895,
   666307205, 773529912, 1294757372, 1396182291,
   1695183700, 1986661051, 2177026350, 2456956037,
   2730485921, 2820302411, 3259730800, 3345764771,
   3516065817, 3600352804, 4094571909, 275423344,
   430227734, 506948616, 659060556, 883997877,
   958139571, 1322822218, 1537002063, 1747873779,
   1955562222, 2024104815, 2227730452, 2361852424,
   2428436474, 2756734187, 3204031479, 3329325298]

/-- The eight 32-bit working variables of the compression function. -/
structure Hash8 where
  a : Nat
  b : Nat
  c : Nat
  d : Nat
  e : Nat
  f : Nat
  g : Nat
  h : Nat
deriving DecidableEq, Repr

/-- SHA-256 initial hash value (FIPS 180-4 §5.3.3), in decimal. -/
def H256 : Hash8 :=
  ⟨1779033703, 3144134277, 1013904242, 2773480762,
   1359893119, 2600822924, 528734635, 1541459225⟩

/-- One round of the SHA-256 compression function. -/
def shaRound (st : Hash8) (kw : Nat × Nat) : Hash8 :=
  let t1 := w32 (st.h + bsig1 st.e + chf st.e st.f st.g + kw.1 + kw.2)
  let t2 := w32 (bsig0 st.a + majf st.a st.b st.c)
  ⟨w32 (t1 + t2), st.a, st.b, st.c, w32 (st.d + t1), st.e, st.f, st.g⟩

/-- Extend a message-schedule word list by one word. -/
def extendSchedule (l : List Nat) : List Nat :=
  let n := l.length
  l ++ [w32 (ssig1 (l.getD (n - 2) 0) + l.getD (n - 7) 0 +
             ssig0 (l.getD (n - 15) 0) + l.getD (n - 16) 0)]

/-- The 64-word message schedule of a 16-word block. -/
def scheduleWords (block : List Nat) : List Nat :=
  (List.range 48).foldl (fun l _ => extendSchedule l) block

/-- Process one 16-word block. -/
def processBlock (h0 : Hash8) (block : List Nat) : Hash8 :=
  let st := (K256.zip (scheduleWords block)).foldl shaRound h0
  ⟨w32 (h0.a + st.a), w32 (h0.b + st.b), w32 (h0.c + st.c), w32 (h0.d + st.d),
   w32 (h0.e + st.e), w32 (h0.f + st.f), w32 (h0.g + st.g), w32 (h0.h + st.h)⟩

/-- Big-endian bytes to 32-bit words, 4 bytes per word. -/
def bytesToWords : List Nat → List Nat
  | b0 :: b1 :: b2 :: b3 :: rest =>
      (((b0 * 256 + b1) * 256 + b2) * 256 + b3) :: bytesToWords rest
  | _ => []

/-- Split a word list into 16-word blocks. -/
def toBlocks : List Nat → List (List Nat)
  | w0 :: w1 :: w2 :: w3 :: w4 :: w5 :: w6 :: w7 ::
    w8 :: w9 :: w10 :: w11 :: w12 :: w13 :: w14 :: w15 :: rest =>
      [w0, w1, w2, w3, w4, w5, w6, w7, w8, w9, w10, w11, w12, w13, w14, w15]
        :: toBlocks rest
  | _ => []

/-- Big-endian 8-byte encoding of the bit length. -/
def lenBytes (bitLen : Nat) : List Nat :=
  [(bitLen >>> 56) % 256, (bitLen >>> 48) % 256, (bitLen >>> 40) % 256,
   (bitLen >>> 32) % 256, (bitLen >>> 24) % 256, (bitLen >>> 16) % 256,
   (bitLen >>> 8) % 256, bitLen % 256]

/-- SHA-256 message padding. -/
def pad256 (msg : List Nat) : List Nat :=
  let l := msg.length
  msg ++ [0x80] ++ List.replicate ((120 - (l + 1) % 64) % 64) 0 ++ lenBytes (8 * l)

/-- SHA-256 digest of a byte list, as eight 32-bit words. -/
def sha256digest (msg : List Nat) : Hash8 :=
  (toBlocks (bytesToWords (pad256 msg))).foldl processBlock H256

/-- The sixteen lowercase hexadecimal digits. -/
def hexChars : List Char := "0123456789abcdef".data

/-- Hex digit for a nibble. -/
def hexDigit (n : Nat) : Char := hexChars.getD (n % 16) '0'

/-- Lowercase hex rendering of one 32-bit word (8 digits, big-endian). -/
def wordHex (w : Nat) : List Char :=
  [hexDigit ((w >>> 28) % 16), hexDigit ((w >>> 24) % 16),
   hexDigit ((w >>> 20) % 16), hexDigit ((w >>> 16) % 16),
   hexDigit ((w >>> 12) % 16), hexDigit ((w >>> 8) % 16),
   hexDigit ((w >>> 4) % 16), hexDigit (w % 16)]

/-- The 64 hex characters of a SHA-256 digest of a byte list
(Python `hashlib.sha256(raw).hexdigest()`). -/
def sha256hexChars (msg : List Nat) : List Char :=
  let d := sha256digest msg
  wordHex d.a ++ wordHex d.b ++ wordHex d.c ++ wordHex d.d ++
  wordHex d.e ++ wordHex d.f ++ wordHex d.g ++ wordHex d.h

/-- UTF-8 encoding of one code point. -/
def utf8Char (c : Nat) : List Nat :=
  if c < 0x80 then [c]
  else if c < 0x800 then [0xC0 + c / 64, 0x80 + c % 64]
  else if c < 0x10000 then
    [0xE0 + c / 4096, 0x80 + (c / 64) % 64, 0x80 + c % 64]
  else
    [0xF0 + c / 262144, 0x80 + (c / 4096) % 64, 0x80 + (c / 64) % 64, 0x80 + c % 64]

/-- UTF-8 encoding of a string (Python `.encode("utf-8")`). -/
def strBytes (s : String) : List Nat :=
  s.data.flatMap fun c => utf8Char c.toNat

/-- Hexdigest of the SHA-256 of a string, as a string. -/
def sha256hexStr (s : String) : String :=
  String.mk (sha256hexChars (strBytes s))

/-! ### Canonical JSON serialization (`json.dumps(·, sort_keys=True, ensure_ascii=False)`)

Python dicts are embedded as insertion-ordered association lists with
distinct keys. -/

/-- JSON escaping of one character (`ensure_ascii=False`): only the quote,
the backslash and control characters are escaped. -/
def jsonEscapeChar (c : Char) : List Char :=
  if c = '"' then ['\\', '"']
  else if c = '\\' then ['\\', '\\']
  else if c.toNat < 32 then
    if c.toNat = 8 then ['\\', 'b']
    else if c.toNat = 9 then ['\\', 't']
    else if c.toNat = 10 then ['\\', 'n']
    else if c.toNat = 12 then ['\\', 'f']
    else if c.toNat = 13 then ['\\', 'r']
    else ['\\', 'u', '0', '0', hexDigit (c.toNat / 16), hexDigit c.toNat]
  else [c]

/-- JSON string literal. -/
def jsonString (s : String) : String :=
  "\"" ++ String.mk (s.data.flatMap jsonEscapeChar) ++ "\""

/-- Key order used by `sort_keys=True`. -/
def keyLe (p q : String × Int) : Prop := p.1 ≤ q.1

instance : DecidableRel keyLe := fun p q => inferInstanceAs (Decidable (p.1 ≤ q.1))

instance : IsTotal (String × Int) keyLe := ⟨fun p q => le_total p.1 q.1⟩

instance : IsTrans (String × Int) keyLe := ⟨fun _ _ _ h1 h2 => le_trans h1 h2⟩

/-- Strict key order (used to show canonical forms are unique). -/
def keyLt (p q : String × Int) : Prop := p.1 < q.1

instance : IsAntisymm (String × Int) keyLt :=
  ⟨fun _ _ h1 h2 => absurd (lt_trans h1 h2) (lt_irrefl _)⟩

/-- Sort an association list by key. -/
def sortByKey (rs : List (String × Int)) : List (String × Int) :=
  rs.insertionSort keyLe

/-- `json.dumps(responses, sort_keys=True, ensure_ascii=False)` for a
string-to-int dict. -/
def jsonDumpsSorted (rs : List (String × Int)) : String :=
  "\x7b" ++
    String.intercalate ", "
      ((sortByKey rs).map fun p => jsonString p.1 ++ ": " ++ toString p.2) ++
  "\x7d"

/-! ### Hashing helpers (`make_patient_hash`, `make_submission_id`) -/

/-- `make_patient_hash(name, dob)`: `sha256(f"{name}|{dob}|{SALT}")[:16]`.
The module-global `SALT` secret is passed explicitly. -/
def make_patient_hash (salt name dob : String) : String :=
  String.mk ((sha256hexChars (strBytes (name ++ "|" ++ dob ++ "|" ++ salt))).take 16)

/-- `make_submission_id(patient_hash, created_at, responses)`. -/
def make_submission_id (patient_hash created_at : String)
    (responses : List (String × Int)) : String :=
  String.mk ((sha256hexChars (strBytes
    (patient_hash ++ "|" ++ created_at ++ "|" ++ jsonDumpsSorted responses))).take 16)

/-! ### Item catalog and scoring -/

/-- One MG-ADL item: id, question text, score-to-label choices. -/
structure Item where
  id : String
  question : String
  choices : List (Nat × String)
deriving DecidableEq, Repr

/-- The static 8-item MG-ADL catalog (`ITEMS`). -/
def ITEMS : List Item :=
  [⟨"mgadl_01_talking", "말하기",
    [(0, "정상"), (1, "때때로 불분명하거나 콧소리 나는 발음"),
     (2, "불분명하거나 콧소리가 나는 발음이 지속되나 이해할 수 있음"),
     (3, "말을 이해하기 어려움")]⟩,
   ⟨"mgadl_02_chewing", "씹기",
    [(0, "정상"), (1, "고형 음식을 씹기가 어려움"),
     (2, "부드러운 음식을 씹기가 어려움"), (3, "위장 영양관")]⟩,
   ⟨"mgadl_03_swallowing", "삼키기",
    [(0, "정상"), (1, "드물게 사래 들리는 경우가 있음"),
     (2, "자주 사래 들려 식사에 변화를 줄 필요가 있음"), (3, "위장 영양관")]⟩,
   ⟨"mgadl_04_breathing", "숨쉬기",
    [(0, "정상"), (1, "힘든 활동 시 숨가쁨"),
     (2, "휴식 시 숨가쁨"), (3, "인공호흡기의존")]⟩,
   ⟨"mgadl_05_brush_teeth_hair", "양치나 머리를 빗을 때",
    [(0, "어려움 없음"), (1, "힘이 더 들지만 쉬는 기간이 필요하지 않음"),
     (2, "쉬는 기간이 필요함"), (3, "이 기능 중 한 가지를 할 수 없음")]⟩,
   ⟨"mgadl_06_arise_from_chair", "의자에서 일어설 때",
    [(0, "어려움 없음"), (1, "경증으로, 가끔 팔을 사용함"),
     (2, "중등도로, 항상 팔을 사용함"), (3, "중증으로, 도움이 필요함")]⟩,
   ⟨"mgadl_07_diplopia", "겹쳐보임(복시)",
    [(0, "없음"), (1, "발생하나 매일 발생하지는 않음"),
     (2, "매일 발생하나 지속적이지는 않음"), (3, "지속적임")]⟩,
   ⟨"mgadl_08_ptosis", "눈꺼풀처짐(안검하수)",
    [(0, "없음"), (1, "발생하나 매일 발생하지는 않음"),
     (2, "매일 발생하나 지속적이지는 않음"), (3, "지속적임")]⟩]

/-- The item ids in catalog order. -/
def itemIds : List String := ITEMS.map Item.id

/-- `EXPECTED_HEADER`. -/
def EXPECTED_HEADER : List String :=
  ["created_at", "submission_id", "name", "dob", "patient_hash", "total_score"]
    ++ itemIds

/-- `compute_total(responses)`: sum of the (integer) response values. -/
def compute_total (responses : List (String × Int)) : Int :=
  (responses.map Prod.snd).sum

/-! ### Worksheet, remote operations, configuration -/

/-- A spreadsheet cell value as passed to `append_row` (strings or ints;
`value_input_option="RAW"` keeps the type). -/
inductive Cell
  | str (s : String)
  | int (n : Int)
deriving DecidableEq, Repr

/-- A worksheet: its rows (`row_values(1)` is the header row). -/
structure Worksheet where
  rows : List (List String)
deriving DecidableEq, Repr

/-- One remote call issued to the spreadsheet backend. -/
inductive RemoteOp
  | authorize
  | openByKey (id : String)
  | worksheetLookup (name : String)
  | addWorksheet (name : String)
  | getAllValues
  | rowValues1
  | updateRow1 (row : List String)
  | appendRow (row : List Cell)
deriving DecidableEq, Repr

/-- Whether a remote op writes to the sheet. -/
def isWriteOp : RemoteOp → Bool
  | .updateRow1 _ => true
  | .appendRow _ => true
  | _ => false

/-- The Streamlit secrets the module reads. -/
structure Config where
  APP_PASSWORD : String
  SHEET_ID : String
  WORKSHEET_NAME : String
  SALT : String
  SA_INFO : Option String
deriving DecidableEq, Repr

/-- Outcomes of the remote backend for one interaction: whether
`open_by_key` succeeds, whether the worksheet tab exists (and its
contents), and whether the data-row `append_row` succeeds. -/
structure Backend where
  openOk : Bool
  wsPresent : Bool
  sheet : Worksheet
  appendOk : Bool
  spreadsheetTitle : String
  updatedRange : Option String
deriving DecidableEq, Repr

/-- The exceptions the module can raise around a remote append. -/
inductive AppError
  | noServiceAccount
  | noSheetId
  | remote (msg : String)
deriving DecidableEq, Repr

/-- Python `repr(e)` of a caught exception. -/
def errRepr : AppError → String
  | .noServiceAccount => "RuntimeError: GOOGLE_SERVICE_ACCOUNT missing"
  | .noSheetId => "RuntimeError: SHEET_ID missing"
  | .remote msg => "APIError: " ++ msg

/-- Metadata returned by `append_record_to_sheet`. -/
structure SendInfo where
  spreadsheetTitle : String
  worksheetTitle : String
  updatedRange : Option String
deriving DecidableEq, Repr

/-- Overwrite row 1 of a worksheet (`ws.update("1:1", [r])`). -/
def setRow1 (ws : Worksheet) (r : List String) : Worksheet :=
  match ws.rows with
  | [] => ⟨[r]⟩
  | _ :: rest => ⟨r :: rest⟩

/-- Cell rendering used when a row is stored in the sheet. -/
def cellStr : Cell → String
  | .str s => s
  | .int n => toString n

/-- The header row the reconciliation reads (`row_values(1)`, empty list
when the sheet has no rows). -/
def currentHeaderOf (ws : Worksheet) : List String := ws.rows.headD []

/-- `ensure_header(ws)`: returns the resulting header, the updated
worksheet, and the trace of remote calls issued.  The Python local
`current` is `currentHeaderOf ws`; `missing` is the filter below. -/
def ensure_header (ws : Worksheet) : List String × Worksheet × List RemoteOp :=
  if ws.rows = [] then
    (EXPECTED_HEADER, ⟨ws.rows ++ [EXPECTED_HEADER]⟩,
     [.getAllValues, .appendRow (EXPECTED_HEADER.map Cell.str)])
  else if currentHeaderOf ws = [] then
    (EXPECTED_HEADER, setRow1 ws EXPECTED_HEADER,
     [.getAllValues, .rowValues1, .updateRow1 EXPECTED_HEADER])
  else if (EXPECTED_HEADER.filter fun h => ¬ h ∈ currentHeaderOf ws).isEmpty then
    (currentHeaderOf ws, ws, [.getAllValues, .rowValues1])
  else
    (currentHeaderOf ws ++ EXPECTED_HEADER.filter (fun h => ¬ h ∈ currentHeaderOf ws),
     setRow1 ws
       (currentHeaderOf ws ++ EXPECTED_HEADER.filter (fun h => ¬ h ∈ currentHeaderOf ws)),
     [.getAllValues, .rowValues1,
      .updateRow1
        (currentHeaderOf ws ++ EXPECTED_HEADER.filter (fun h => ¬ h ∈ currentHeaderOf ws))])

/-- `get_worksheet()`: checks `SHEET_ID`, builds the client (checks
`SA_INFO`), opens the spreadsheet and fetches or creates the tab.  The
second component is the trace of remote calls issued (empty when a
configuration error is raised first). -/
def get_worksheet (cfg : Config) (b : Backend) :
    Except AppError Worksheet × List RemoteOp :=
  if cfg.SHEET_ID = "" then (.error .noSheetId, [])
  else
    match cfg.SA_INFO with
    | none => (.error .noServiceAccount, [])
    | some _ =>
      if b.openOk then
        if b.wsPresent then
          (.ok b.sheet,
           [.authorize, .openByKey cfg.SHEET_ID, .worksheetLookup cfg.WORKSHEET_NAME])
        else
          (.ok ⟨[]⟩,
           [.authorize, .openByKey cfg.SHEET_ID, .worksheetLookup cfg.WORKSHEET_NAME,
            .addWorksheet cfg.WORKSHEET_NAME])
      else
        (.error (.remote "open_by_key failed"), [.authorize, .openByKey cfg.SHEET_ID])

/-- `append_record_to_sheet(record)`: aligns the record to the current
header order (`record.get(h, "")`) and appends it; returns the send
metadata and the remote-call trace. -/
def append_record_to_sheet (cfg : Config) (b : Backend)
    (record : List (String × Cell)) : Except AppError SendInfo × List RemoteOp :=
  match get_worksheet cfg b with
  | (.error e, ops) => (.error e, ops)
  | (.ok ws, ops0) =>
    let hr := ensure_header ws
    let row := hr.1.map fun h => (record.lookup h).getD (Cell.str "")
    if b.appendOk then
      (.ok ⟨b.spreadsheetTitle, cfg.WORKSHEET_NAME, b.updatedRange⟩,
       ops0 ++ hr.2.2 ++ [.appendRow row])
    else
      (.error (.remote "append_row failed"), ops0 ++ hr.2.2 ++ [.appendRow row])

/-! ### Session state and interaction handlers -/

/-- The Streamlit session state of one user session. -/
structure SessionState where
  step : Nat
  authed : Bool
  patientName : String
  patientDob : String
  responses : List (String × Int)
  created_at : String
  submission_id : String
  sent : Bool
  send_info : Option SendInfo
  send_error : Option String
deriving DecidableEq, Repr

/-- The initial session state (also the result of `reset_all()`). -/
def initialState : SessionState :=
  ⟨1, false, "", "", [], "", "", false, none, none⟩

/-- `reset_all()`. -/
def reset_all (_ : SessionState) : SessionState := initialState

/-- `build_record()`: the record dict in insertion order. -/
def build_record (cfg : Config) (s : SessionState) : List (String × Cell) :=
  let ph := make_patient_hash cfg.SALT s.patientName s.patientDob
  let total := compute_total s.responses
  [("created_at", Cell.str s.created_at),
   ("submission_id", Cell.str s.submission_id),
   ("name", Cell.str s.patientName),
   ("dob", Cell.str s.patientDob),
   ("patient_hash", Cell.str ph),
   ("total_score", Cell.int total)]
  ++ ITEMS.map fun it => (it.id, Cell.int ((s.responses.lookup it.id).getD 0))

/-- `try_send()`: if `sent` is already true, returns success immediately
with no remote call; otherwise appends the built record and, on success,
sets `sent`, `send_info` and clears `send_error`.  An exception from the
append propagates (the session fields are then untouched). -/
def try_send (cfg : Config) (b : Backend) (s : SessionState) :
    Except AppError SessionState × List RemoteOp :=
  if s.sent then (.ok s, [])
  else
    match append_record_to_sheet cfg b (build_record cfg s) with
    | (.ok info, ops) =>
      (.ok { s with sent := true, send_info := some info, send_error := none }, ops)
    | (.error e, ops) => (.error e, ops)

/-- The step-1 form handler: password gate plus patient identity.  Returns
the new session state and the error message shown, if any. -/
def page1Submit (cfg : Config) (s : SessionState) (pw name : String)
    (dob : Option String) : SessionState × Option String :=
  if cfg.APP_PASSWORD = "" then
    (s, some "서버 설정 오류: APP_PASSWORD가 Secrets에 설정되어 있지 않습니다.")
  else if pw ≠ cfg.APP_PASSWORD then (s, some "비밀번호가 올바르지 않습니다.")
  else if name.trim = "" then (s, some "이름을 입력해주세요.")
  else
    match dob with
    | none => (s, some "생년월일을 선택해주세요.")
    | some d =>
      ({ s with authed := true, patientName := name.trim, patientDob := d, step := 2 },
       none)

/-- The state just before `try_send()` in the step-2 submit handler:
responses, timestamp and submission id stored, send flags reset. -/
def step2Prepare (cfg : Config) (s : SessionState)
    (newResponses : List (String × Int)) (now : String) : SessionState :=
  let ph := make_patient_hash cfg.SALT s.patientName s.patientDob
  { s with responses := newResponses, created_at := now,
           submission_id := make_submission_id ph now newResponses,
           sent := false, send_info := none, send_error := none }

/-- The step-2 submit handler: stores responses/timestamp/submission id,
attempts the send, moves to step 3 on success, and on exception stays
put recording the error.  Returns the new state and the remote trace. -/
def step2Submit (cfg : Config) (b : Backend) (s : SessionState)
    (newResponses : List (String × Int)) (now : String) :
    SessionState × List RemoteOp :=
  let s1 := step2Prepare cfg s newResponses now
  match try_send cfg b s1 with
  | (.ok s2, ops) => ({ s2 with step := 3 }, ops)
  | (.error e, ops) =>
    ({ s1 with sent := false, send_info := none, send_error := some (errRepr e) }, ops)

/-- The state just before `try_send()` in the retry handler: only the
three send flags are cleared. -/
def retryPrepare (s : SessionState) : SessionState :=
  { s with sent := false, send_info := none, send_error := none }

/-- The step-2 retry handler: clears the send flags, re-attempts the same
send, moves to step 3 on success, records the error on failure. -/
def retryHandler (cfg : Config) (b : Backend) (s : SessionState) :
    SessionState × List RemoteOp :=
  let s0 := retryPrepare s
  match try_send cfg b s0 with
  | (.ok s1, ops) => ({ s1 with step := 3 }, ops)
  | (.error e, ops) => ({ s0 with send_error := some (errRepr e) }, ops)

/-! ### Auxiliary observers and concrete sample data -/

/-- Whether an `Except` result is a success. -/
def exceptOk {ε α : Type} : Except ε α → Bool
  | .ok _ => true
  | .error _ => false

/-- A fully populated configuration. -/
def cfgGood : Config := ⟨"pw1234", "sheet123", "responses", "s3cr3t", some "sa-blob"⟩

/-- A configuration whose `APP_PASSWORD` secret is missing (empty). -/
def cfgEmptyPw : Config := ⟨"", "sheet123", "responses", "s3cr3t", some "sa-blob"⟩

/-- A configuration whose `SHEET_ID` secret is missing (empty). -/
def cfgNoSheet : Config := ⟨"pw1234", "", "responses", "s3cr3t", some "sa-blob"⟩

/-- A backend where every remote call succeeds against an empty sheet. -/
def backendGood : Backend :=
  ⟨true, true, ⟨[]⟩, true, "MG-ADL Sheet", some "responses!A2:N2"⟩

/-- A backend where the data-row append fails (quota/permission). -/
def backendDown : Backend := ⟨true, true, ⟨[]⟩, false, "MG-ADL Sheet", none⟩

/-- The response set of the worked scenario (total 5/24). -/
def sampleResponses : List (String × Int) :=
  [("mgadl_01_talking", 1), ("mgadl_02_chewing", 0), ("mgadl_03_swallowing", 2),
   ("mgadl_04_breathing", 0), ("mgadl_05_brush_teeth_hair", 1),
   ("mgadl_06_arise_from_chair", 0), ("mgadl_07_diplopia", 0), ("mgadl_08_ptosis", 1)]

/-- A session that has already sent its submission. -/
def sampleSentState : SessionState :=
  ⟨3, true, "홍길동", "1980-01-02", sampleResponses, "2026-10-12T10:00:00",
   "86a4560ac021a218", true,
   some ⟨"MG-ADL Sheet", "responses", some "responses!A2:N2"⟩, none⟩

/-- An authenticated session sitting on step 2. -/
def sampleStep2State : SessionState :=
  ⟨2, true, "홍길동", "1980-01-02", [], "", "", false, none, none⟩

/-- A step-2 session whose previous send failed. -/
def sampleFailedState : SessionState :=
  ⟨2, true, "홍길동", "1980-01-02", sampleResponses, "2026-10-12T10:00:00",
   "86a4560ac021a218", false, none, some "APIError: append_row failed"⟩

/-! ### Digest shape lemmas -/

theorem hexDigit_mem (n : Nat) : hexDigit n ∈ hexChars := by
  have h : n % 16 < hexChars.length := Nat.mod_lt _ (by decide)
  rw [hexDigit, List.getD_eq_getElem?_getD, List.getElem?_eq_getElem h, Option.getD_some]
  exact List.getElem_mem h

theorem wordHex_mem {c : Char} {w : Nat} (h : c ∈ wordHex w) : c ∈ hexChars := by
  simp only [wordHex, List.mem_cons, List.not_mem_nil, or_false] at h
  rcases h with h | h | h | h | h | h | h | h <;> exact h ▸ hexDigit_mem _

theorem sha256hexChars_mem {c : Char} {m : List Nat}
    (h : c ∈ sha256hexChars m) : c ∈ hexChars := by
  simp only [sha256hexChars, List.mem_append] at h
  rcases h with ((((((h | h) | h) | h) | h) | h) | h) | h <;> exact wordHex_mem h

theorem sha256hexChars_length (m : List Nat) : (sha256hexChars m).length = 64 := rfl

/-- FIPS 180-4 test vector: the digest of the empty message. -/
theorem sha256_empty_vector :
    sha256hexStr "" =
      "e3b0c44298fc1c149afbf4c8996fb92427ae41e4649b934ca495991b7852b855" := by
  rfl

/-- FIPS 180-4 test vector: the digest of "abc". -/
theorem sha256_abc_vector :
    sha256hexStr "abc" =
      "ba7816bf8f01cfea414140de5dae2223b00361a396177a9cb410ff61f20015ad" := by
  rfl

/-! ### Canonical-form lemmas for the sorted JSON payload -/

theorem sortByKey_perm (rs : List (String × Int)) : (sortByKey rs).Perm rs :=
  List.perm_insertionSort keyLe rs

theorem sortByKey_sorted (rs : List (String × Int)) :
    List.Sorted keyLe (sortByKey rs) :=
  List.sorted_insertionSort keyLe rs

theorem sorted_keyLt_of {l : List (String × Int)} (hs : List.Sorted keyLe l)
    (hnd : (l.map Prod.fst).Nodup) : List.Sorted keyLt l := by
  have hne : l.Pairwise fun p q => p.1 ≠ q.1 := List.pairwise_map.mp hnd
  exact List.Pairwise.imp (fun h => lt_of_le_of_ne h.1 h.2)
    (List.Pairwise.and hs hne)

theorem sortByKey_perm_eq {rs1 rs2 : List (String × Int)} (hperm : rs1.Perm rs2)
    (hnd : (rs1.map Prod.fst).Nodup) : sortByKey rs1 = sortByKey rs2 := by
  have hp : (sortByKey rs1).Perm (sortByKey rs2) :=
    (sortByKey_perm rs1).trans (hperm.trans (sortByKey_perm rs2).symm)
  have h1 : List.Sorted keyLt (sortByKey rs1) :=
    sorted_keyLt_of (sortByKey_sorted rs1)
      (((sortByKey_perm rs1).map Prod.fst).nodup_iff.mpr hnd)
  have h2 : List.Sorted keyLt (sortByKey rs2) :=
    sorted_keyLt_of (sortByKey_sorted rs2)
      (((sortByKey_perm rs2).map Prod.fst).nodup_iff.mpr
        ((hperm.map Prod.fst).nodup_iff.mp hnd))
  exact List.eq_of_perm_of_sorted hp h1 h2

theorem jsonDumpsSorted_perm_eq {rs1 rs2 : List (String × Int)}
    (hperm : rs1.Perm rs2) (hnd : (rs1.map Prod.fst).Nodup) :
    jsonDumpsSorted rs1 = jsonDumpsSorted rs2 := by
  unfold jsonDumpsSorted
  rw [sortByKey_perm_eq hperm hnd]

/-! ### Claim theorems: hashing -/

/-- C7: for every name, dob and salt, `make_patient_hash` equals the first
16 hex characters of the SHA-256 hexdigest of `name|dob|salt`; being a
Lean function it is pure and deterministic, and its output is always a
16-character lowercase-hex string. -/
theorem make_patient_hash_correct (salt name dob : String) :
    make_patient_hash salt name dob =
      String.mk ((sha256hexChars (strBytes (name ++ "|" ++ dob ++ "|" ++ salt))).take 16)
    ∧ (make_patient_hash salt name dob).length = 16
    ∧ ∀ c ∈ (make_patient_hash salt name dob).data, c ∈ hexChars := by
  refine ⟨rfl, ?_, ?_⟩
  · show ((sha256hexChars (strBytes (name ++ "|" ++ dob ++ "|" ++ salt))).take 16).length = 16
    rw [List.length_take, sha256hexChars_length]
    decide
  · intro c hc
    exact sha256hexChars_mem (List.take_subset _ _ hc)

/-- Witness for C7: the hash of a concrete patient identity is a
16-character string. -/
theorem make_patient_hash_correct_witness :
    (make_patient_hash "s3cr3t" "홍길동" "1980-01-02").length = 16 :=
  (make_patient_hash_correct "s3cr3t" "홍길동" "1980-01-02").2.1

/-- C6: for every patient hash, timestamp and response mapping,
`make_submission_id` equals the first 16 hex characters of the SHA-256
hexdigest of `patient_hash|created_at|canonical_json(responses)` where
the canonical JSON sorts the keys; hence two response dicts that are
equal as maps (permutations of each other, keys distinct) yield the same
submission id, and the id is a 16-character hex string. -/
theorem make_submission_id_correct (ph ca : String) (rs1 rs2 : List (String × Int))
    (hperm : rs1.Perm rs2) (hnd : (rs1.map Prod.fst).Nodup) :
    make_submission_id ph ca rs1 =
      String.mk ((sha256hexChars (strBytes
        (ph ++ "|" ++ ca ++ "|" ++ jsonDumpsSorted rs1))).take 16)
    ∧ make_submission_id ph ca rs1 = make_submission_id ph ca rs2
    ∧ (make_submission_id ph ca rs1).length = 16
    ∧ ∀ c ∈ (make_submission_id ph ca rs1).data, c ∈ hexChars := by
  refine ⟨rfl, ?_, ?_, ?_⟩
  · unfold make_submission_id
    rw [jsonDumpsSorted_perm_eq hperm hnd]
  · show ((sha256hexChars (strBytes
        (ph ++ "|" ++ ca ++ "|" ++ jsonDumpsSorted rs1))).take 16).length = 16
    rw [List.length_take, sha256hexChars_length]
    decide
  · intro c hc
    exact sha256hexChars_mem (List.take_subset _ _ hc)

/-- Witness for C6: two orderings of the same response dict get the same
submission id. -/
theorem make_submission_id_correct_witness :
    ([("b", (2 : Int)), ("a", 1)].Perm [("a", (1 : Int)), ("b", 2)]
      ∧ (([("b", (2 : Int)), ("a", 1)].map Prod.fst).Nodup))
    ∧ make_submission_id "ph" "2026-10-12T10:00:00" [("b", 2), ("a", 1)] =
        make_submission_id "ph" "2026-10-12T10:00:00" [("a", 1), ("b", 2)] :=
  ⟨⟨List.Perm.swap _ _ _, by decide⟩,
   (make_submission_id_correct "ph" "2026-10-12T10:00:00" _ _
      (List.Perm.swap _ _ _) (by decide)).2.1⟩

/-! ### Claim theorems: scoring -/

/-- C8: for every valid response set (all 8 item ids mapped to integer
scores in 0..3), the total equals the sum of the values and lies in
[0, 24]. -/
theorem compute_total_correct (rs : List (String × Int))
    (hkeys : (rs.map Prod.fst).Perm itemIds)
    (hvals : ∀ p ∈ rs, 0 ≤ p.2 ∧ p.2 ≤ 3) :
    compute_total rs = (rs.map Prod.snd).sum
    ∧ 0 ≤ compute_total rs ∧ compute_total rs ≤ 24 := by
  refine ⟨rfl, ?_, ?_⟩
  · exact List.sum_nonneg fun x hx => by
      obtain ⟨p, hp, rfl⟩ := List.mem_map.mp hx
      exact (hvals p hp).1
  · have hlen : (rs.map Prod.snd).length = 8 := by
      have h1 : rs.length = itemIds.length := by simpa using hkeys.length_eq
      have h2 : itemIds.length = 8 := rfl
      simp [h1, h2]
    have hle : (rs.map Prod.snd).sum ≤ (rs.map Prod.snd).length • (3 : Int) :=
      List.sum_le_card_nsmul _ _ fun x hx => by
        obtain ⟨p, hp, rfl⟩ := List.mem_map.mp hx
        exact (hvals p hp).2
    rw [hlen] at hle
    have h24 : (8 : ℕ) • (3 : Int) = 24 := by rw [nsmul_eq_mul]; norm_num
    rw [h24] at hle
    exact hle

/-- Witness for C8: the worked scenario (talking 1, chewing 0,
swallowing 2, breathing 0, brush 1, arise 0, diplopia 0, ptosis 1)
totals 5, inside [0, 24]. -/
theorem compute_total_correct_witness :
    ((sampleResponses.map Prod.fst).Perm itemIds
      ∧ ∀ p ∈ sampleResponses, 0 ≤ p.2 ∧ p.2 ≤ 3)
    ∧ compute_total sampleResponses = 5
    ∧ 0 ≤ compute_total sampleResponses ∧ compute_total sampleResponses ≤ 24 :=
  ⟨⟨List.Perm.refl _, by decide⟩, by decide,
   (compute_total_correct sampleResponses (List.Perm.refl _) (by decide)).2⟩

/-! ### Claim theorems: header reconciliation -/

theorem mem_current_append_missing {current : List String} {e : String}
    (he : e ∈ EXPECTED_HEADER) :
    e ∈ current ++ EXPECTED_HEADER.filter (fun h => ¬ h ∈ current) := by
  by_cases hc : e ∈ current
  · exact List.mem_append_left _ hc
  · exact List.mem_append_right _ (List.mem_filter.mpr ⟨he, by simpa using hc⟩)

/-- C4: header reconciliation returns the current header with exactly
the missing expected columns appended, in expected order; in particular
the current header is kept unchanged as an initial segment. -/
theorem ensure_header_appends_only (ws : Worksheet) :
    (ensure_header ws).1 =
      currentHeaderOf ws ++
        EXPECTED_HEADER.filter (fun h => ¬ h ∈ currentHeaderOf ws)
    ∧ (ensure_header ws).1.take (currentHeaderOf ws).length = currentHeaderOf ws := by
  have main : (ensure_header ws).1 = currentHeaderOf ws ++
      EXPECTED_HEADER.filter (fun h => ¬ h ∈ currentHeaderOf ws) := by
    by_cases h0 : ws.rows = []
    · have hcur : currentHeaderOf ws = [] := by simp [currentHeaderOf, h0]
      unfold ensure_header
      rw [if_pos h0, hcur]
      simp
    · by_cases h1 : currentHeaderOf ws = []
      · unfold ensure_header
        rw [if_neg h0, if_pos h1, h1]
        simp
      · by_cases h2 : (EXPECTED_HEADER.filter fun h => ¬ h ∈ currentHeaderOf ws).isEmpty
        · unfold ensure_header
          rw [if_neg h0, if_neg h1, if_pos h2]
          rw [List.isEmpty_iff.mp h2, List.append_nil]
        · unfold ensure_header
          rw [if_neg h0, if_neg h1, if_neg h2]
  exact ⟨main, by rw [main]; exact List.take_left _ _⟩

/-- A worksheet with rows, a nonempty first row, and every expected
column already present is left unchanged by `ensure_header`, which then
issues only the two reads. -/
theorem ensure_header_stable (ws : Worksheet) (hrows : ws.rows ≠ [])
    (hne : currentHeaderOf ws ≠ [])
    (hfull : ∀ e ∈ EXPECTED_HEADER, e ∈ currentHeaderOf ws) :
    ensure_header ws =
      (currentHeaderOf ws, ws, [RemoteOp.getAllValues, RemoteOp.rowValues1]) := by
  have hmiss : (EXPECTED_HEADER.filter fun h => ¬ h ∈ currentHeaderOf ws) = [] :=
    List.filter_eq_nil_iff.mpr fun e he => by simpa using hfull e he
  unfold ensure_header
  rw [if_neg hrows, if_neg hne, if_pos (by rw [hmiss]; rfl)]

/-- C5: running `ensure_header` a second time performs no header write
(only the two reads), returns the same header as the first run, and
leaves the sheet unchanged. -/
theorem ensure_header_idempotent (ws : Worksheet) :
    ensure_header (ensure_header ws).2.1 =
      ((ensure_header ws).1, (ensure_header ws).2.1,
        [RemoteOp.getAllValues, RemoteOp.rowValues1])
    ∧ ((ensure_header (ensure_header ws).2.1).2.2).filter isWriteOp = [] := by
  have hEne : EXPECTED_HEADER ≠ [] := by decide
  have main : ensure_header (ensure_header ws).2.1 =
      ((ensure_header ws).1, (ensure_header ws).2.1,
        [RemoteOp.getAllValues, RemoteOp.rowValues1]) := by
    by_cases h0 : ws.rows = []
    · have h1 : ensure_header ws =
          (EXPECTED_HEADER, ⟨ws.rows ++ [EXPECTED_HEADER]⟩,
            [RemoteOp.getAllValues,
             RemoteOp.appendRow (EXPECTED_HEADER.map Cell.str)]) := by
        unfold ensure_header
        rw [if_pos h0]
      have hcur : currentHeaderOf ⟨ws.rows ++ [EXPECTED_HEADER]⟩ = EXPECTED_HEADER := by
        simp [currentHeaderOf, h0]
      simp only [h1]
      rw [ensure_header_stable _ (by simp [h0]) (by rw [hcur]; exact hEne)
            (fun e he => by rw [hcur]; exact he), hcur]
    · obtain ⟨x, xs, hxx⟩ : ∃ x xs, ws.rows = x :: xs := by
        cases hws : ws.rows with
        | nil => exact absurd hws h0
        | cons x xs => exact ⟨x, xs, rfl⟩
      by_cases h1 : currentHeaderOf ws = []
      · have hrow1 : setRow1 ws EXPECTED_HEADER = ⟨EXPECTED_HEADER :: xs⟩ := by
          simp [setRow1, hxx]
        have h2 : ensure_header ws =
            (EXPECTED_HEADER, ⟨EXPECTED_HEADER :: xs⟩,
              [RemoteOp.getAllValues, RemoteOp.rowValues1,
               RemoteOp.updateRow1 EXPECTED_HEADER]) := by
          unfold ensure_header
          rw [if_neg h0, if_pos h1, hrow1]
        have hcur : currentHeaderOf ⟨EXPECTED_HEADER :: xs⟩ = EXPECTED_HEADER := by
          simp [currentHeaderOf]
        simp only [h2]
        rw [ensure_header_stable _ (by simp) (by rw [hcur]; exact hEne)
              (fun e he => by rw [hcur]; exact he), hcur]
      · by_cases h2 : (EXPECTED_HEADER.filter fun h => ¬ h ∈ currentHeaderOf ws).isEmpty
        · have hstable : ensure_header ws =
              (currentHeaderOf ws, ws, [RemoteOp.getAllValues, RemoteOp.rowValues1]) :=
            ensure_header_stable ws h0 h1 fun e he => by
              simpa using List.filter_eq_nil_iff.mp (List.isEmpty_iff.mp h2) e he
          simp only [hstable]
        · have hrow1 : setRow1 ws
              (currentHeaderOf ws ++
                EXPECTED_HEADER.filter (fun h => ¬ h ∈ currentHeaderOf ws)) =
              ⟨(currentHeaderOf ws ++
                EXPECTED_HEADER.filter (fun h => ¬ h ∈ currentHeaderOf ws)) :: xs⟩ := by
            simp [setRow1, hxx]
          have h3 : ensure_header ws =
              (currentHeaderOf ws ++
                 EXPECTED_HEADER.filter (fun h => ¬ h ∈ currentHeaderOf ws),
               ⟨(currentHeaderOf ws ++
                 EXPECTED_HEADER.filter (fun h => ¬ h ∈ currentHeaderOf ws)) :: xs⟩,
               [RemoteOp.getAllValues, RemoteOp.rowValues1,
                RemoteOp.updateRow1
                  (currentHeaderOf ws ++
                    EXPECTED_HEADER.filter (fun h => ¬ h ∈ currentHeaderOf ws))]) := by
            unfold ensure_header
            rw [if_neg h0, if_neg h1, if_neg h2, hrow1]
          have hcur : currentHeaderOf
              ⟨(currentHeaderOf ws ++
                EXPECTED_HEADER.filter (fun h => ¬ h ∈ currentHeaderOf ws)) :: xs⟩ =
              currentHeaderOf ws ++
                EXPECTED_HEADER.filter (fun h => ¬ h ∈ currentHeaderOf ws) := by
            simp [currentHeaderOf]
          simp only [h3]
          rw [ensure_header_stable _ (by simp)
                (by rw [hcur]; exact List.append_ne_nil_of_left_ne_nil h1 _)
                (fun e he => by rw [hcur]; exact mem_current_append_missing he), hcur]
  refine ⟨main, ?_⟩
  rw [main]
  rfl

/-! ### Send-path characterization lemmas -/

theorem try_send_notsent_ok (cfg : Config) (b : Backend) (s : SessionState)
    (info : SendInfo) (ops : List RemoteOp) (hsent : s.sent = false)
    (hA : append_record_to_sheet cfg b (build_record cfg s) = (.ok info, ops)) :
    try_send cfg b s =
      (.ok { s with sent := true, send_info := some info, send_error := none }, ops) := by
  simp only [try_send, hsent, hA]
  rfl

theorem try_send_notsent_err (cfg : Config) (b : Backend) (s : SessionState)
    (e : AppError) (ops : List RemoteOp) (hsent : s.sent = false)
    (hA : append_record_to_sheet cfg b (build_record cfg s) = (.error e, ops)) :
    try_send cfg b s = (.error e, ops) := by
  simp only [try_send, hsent, hA]
  rfl

theorem step2Submit_ok (cfg : Config) (b : Backend) (s : SessionState)
    (nr : List (String × Int)) (now : String) (info : SendInfo) (ops : List RemoteOp)
    (hA : append_record_to_sheet cfg b
        (build_record cfg (step2Prepare cfg s nr now)) = (.ok info, ops)) :
    step2Submit cfg b s nr now =
      ({ step2Prepare cfg s nr now with
          sent := true, send_info := some info, send_error := none, step := 3 }, ops) := by
  simp only [step2Submit,
    try_send_notsent_ok cfg b (step2Prepare cfg s nr now) info ops rfl hA]

theorem step2Submit_err (cfg : Config) (b : Backend) (s : SessionState)
    (nr : List (String × Int)) (now : String) (e : AppError) (ops : List RemoteOp)
    (hA : append_record_to_sheet cfg b
        (build_record cfg (step2Prepare cfg s nr now)) = (.error e, ops)) :
    step2Submit cfg b s nr now =
      ({ step2Prepare cfg s nr now with
          sent := false, send_info := none, send_error := some (errRepr e) }, ops) := by
  simp only [step2Submit,
    try_send_notsent_err cfg b (step2Prepare cfg s nr now) e ops rfl hA]

theorem retryHandler_ok (cfg : Config) (b : Backend) (s : SessionState)
    (info : SendInfo) (ops : List RemoteOp)
    (hA : append_record_to_sheet cfg b (build_record cfg s) = (.ok info, ops)) :
    retryHandler cfg b s =
      ({ retryPrepare s with
          sent := true, send_info := some info, send_error := none, step := 3 }, ops) := by
  have hA' : append_record_to_sheet cfg b
      (build_record cfg (retryPrepare s)) = (.ok info, ops) := hA
  simp only [retryHandler, try_send_notsent_ok cfg b (retryPrepare s) info ops rfl hA']

theorem retryHandler_err (cfg : Config) (b : Backend) (s : SessionState)
    (e : AppError) (ops : List RemoteOp)
    (hA : append_record_to_sheet cfg b (build_record cfg s) = (.error e, ops)) :
    retryHandler cfg b s =
      ({ retryPrepare s with send_error := some (errRepr e) }, ops) := by
  have hA' : append_record_to_sheet cfg b
      (build_record cfg (retryPrepare s)) = (.error e, ops) := hA
  simp only [retryHandler, try_send_notsent_err cfg b (retryPrepare s) e ops rfl hA']

/-! ### Claim theorems: send lifecycle -/

/-- C1: when the sent flag is true, `try_send` issues no remote call at
all (empty trace, so in particular no append) and returns success with
the session unchanged — a retry after a successful send appends nothing
for that submission id. -/
theorem try_send_sent_noop (cfg : Config) (b : Backend) (s : SessionState)
    (hsent : s.sent = true) : try_send cfg b s = (.ok s, []) := by
  simp only [try_send, hsent]
  rfl

/-- Witness for C1: a concrete already-sent session. -/
theorem try_send_sent_noop_witness :
    sampleSentState.sent = true ∧
      try_send cfgGood backendGood sampleSentState = (.ok sampleSentState, []) :=
  ⟨rfl, try_send_sent_noop cfgGood backendGood sampleSentState rfl⟩

/-- C2: on step-2 completion the session moves to step 3 exactly when
the remote append succeeds; when the append raises, the session stays on
step 2 with `sent = false`, no send info, and the error stored (the
handler catches the exception, so nothing escapes). -/
theorem step2_transition_iff (cfg : Config) (b : Backend) (s : SessionState)
    (nr : List (String × Int)) (now : String) (hstep : s.step = 2) :
    ((step2Submit cfg b s nr now).1.step = 3 ↔
      exceptOk (append_record_to_sheet cfg b
        (build_record cfg (step2Prepare cfg s nr now))).1 = true)
    ∧ (exceptOk (append_record_to_sheet cfg b
        (build_record cfg (step2Prepare cfg s nr now))).1 = false →
        (step2Submit cfg b s nr now).1.step = 2
        ∧ (step2Submit cfg b s nr now).1.sent = false
        ∧ (step2Submit cfg b s nr now).1.send_info = none
        ∧ (step2Submit cfg b s nr now).1.send_error ≠ none) := by
  rcases hA : append_record_to_sheet cfg b
      (build_record cfg (step2Prepare cfg s nr now)) with ⟨res, ops⟩
  cases res with
  | ok info =>
    rw [step2Submit_ok cfg b s nr now info ops hA]
    exact ⟨by simp [exceptOk], by simp [exceptOk]⟩
  | error e =>
    rw [step2Submit_err cfg b s nr now e ops hA]
    refine ⟨?_, fun _ => ⟨?_, rfl, rfl, by simp⟩⟩
    · exact iff_of_false (show ¬s.step = 3 by rw [hstep]; decide)
        (by simp [exceptOk])
    · show s.step = 2
      exact hstep

/-- Witness for C2: a concrete step-2 session against a healthy backend
reaches step 3 exactly when the append reports success. -/
theorem step2_transition_iff_witness :
    sampleStep2State.step = 2 ∧
    ((step2Submit cfgGood backendGood sampleStep2State sampleResponses
        "2026-10-12T10:00:00").1.step = 3 ↔
      exceptOk (append_record_to_sheet cfgGood backendGood
        (build_record cfgGood (step2Prepare cfgGood sampleStep2State sampleResponses
          "2026-10-12T10:00:00"))).1 = true) :=
  ⟨rfl, (step2_transition_iff cfgGood backendGood sampleStep2State sampleResponses
      "2026-10-12T10:00:00" rfl).1⟩

/-- C3: the retry action reuses exactly the stored submission: clearing
the flags changes none of submission_id, created_at, responses, patient
identity, step or authed; the rebuilt record equals the stored one; the
retry's remote trace is exactly that of appending the stored record; and
after the retry the identifier and timestamp are still unchanged. -/
theorem retry_reuses_submission (cfg : Config) (b : Backend) (s : SessionState) :
    (retryPrepare s).submission_id = s.submission_id
    ∧ (retryPrepare s).created_at = s.created_at
    ∧ (retryPrepare s).responses = s.responses
    ∧ (retryPrepare s).patientName = s.patientName
    ∧ (retryPrepare s).patientDob = s.patientDob
    ∧ (retryPrepare s).step = s.step
    ∧ (retryPrepare s).authed = s.authed
    ∧ build_record cfg (retryPrepare s) = build_record cfg s
    ∧ (retryHandler cfg b s).2 = (append_record_to_sheet cfg b (build_record cfg s)).2
    ∧ (retryHandler cfg b s).1.submission_id = s.submission_id
    ∧ (retryHandler cfg b s).1.created_at = s.created_at
    ∧ (retryHandler cfg b s).1.responses = s.responses := by
  refine ⟨rfl, rfl, rfl, rfl, rfl, rfl, rfl, rfl, ?_⟩
  rcases hA : append_record_to_sheet cfg b (build_record cfg s) with ⟨res, ops⟩
  cases res with
  | ok info =>
    rw [retryHandler_ok cfg b s info ops hA]
    exact ⟨rfl, rfl, rfl, rfl⟩
  | error e =>
    rw [retryHandler_err cfg b s e ops hA]
    exact ⟨rfl, rfl, rfl, rfl⟩

/-- C9: with an empty `SHEET_ID`, any append attempt raises the
configuration error immediately: no client authorization and no remote
call appears in the trace. -/
theorem append_requires_sheet_id (cfg : Config) (b : Backend)
    (record : List (String × Cell)) (hid : cfg.SHEET_ID = "") :
    append_record_to_sheet cfg b record = (.error .noSheetId, []) := by
  simp only [append_record_to_sheet, get_worksheet, hid]
  rfl

/-- Witness for C9: the concrete no-sheet-id configuration. -/
theorem append_requires_sheet_id_witness :
    cfgNoSheet.SHEET_ID = "" ∧
      append_record_to_sheet cfgNoSheet backendGood [] =
        (.error .noSheetId, []) :=
  ⟨rfl, append_requires_sheet_id cfgNoSheet backendGood [] rfl⟩

/-- C10: with a missing (empty) `APP_PASSWORD`, the step-1 handler
returns the session unchanged — so `authed` is never set and the step
never advances — and shows the configuration error, for every password
the user enters. -/
theorem page1_requires_password (cfg : Config) (s : SessionState)
    (pw name : String) (dob : Option String) (hpw : cfg.APP_PASSWORD = "") :
    page1Submit cfg s pw name dob =
      (s, some "서버 설정 오류: APP_PASSWORD가 Secrets에 설정되어 있지 않습니다.")
    ∧ (page1Submit cfg s pw name dob).1.authed = s.authed
    ∧ (page1Submit cfg s pw name dob).1.step = s.step := by
  have h : page1Submit cfg s pw name dob =
      (s, some "서버 설정 오류: APP_PASSWORD가 Secrets에 설정되어 있지 않습니다.") := by
    simp only [page1Submit, hpw]
    rfl
  exact ⟨h, by rw [h], by rw [h]⟩

/-- Witness for C10: an empty-password deployment rejects a concrete
otherwise-valid submission and leaves the fresh session untouched. -/
theorem page1_requires_password_witness :
    cfgEmptyPw.APP_PASSWORD = "" ∧
      (page1Submit cfgEmptyPw initialState "guess" "홍길동"
        (some "1980-01-02")).1 = initialState := by
  refine ⟨rfl, ?_⟩
  rw [(page1_requires_password cfgEmptyPw initialState "guess" "홍길동"
    (some "1980-01-02") rfl).1]

end MGADL
